import Mathlib

/-!
Shallow embedding of the summarize-sidekick browser extension sources: the
backoff HTTP client, the summarization request builder, the two bubble
renderers, the delivery fallback, the trigger handlers and the popup error
mapping. External platform services are modelled as explicit inputs: fetch
as a sequence of HTTP responses, JSON.parse as a parse oracle, the
preference store as optional strings, and the page DOM as a list of
elements. Two deployment variants of the background script exist in the
repository; the `Extension` namespace models src/extension/background.js
and the `Variant` namespace models the second copy, while `Popup` models
the control-surface script.
-/

/-- JavaScript string-or-default: models `x || d` for a possibly missing
string value, where both a missing value and the empty string are falsy. -/
def jsOrString : Option String → String → String
  | none, d => d
  | some s, d => if s = "" then d else s

/-- Model of `String.prototype.trim`: drop whitespace from both ends. -/
def jsTrim (s : String) : String :=
  String.mk (((s.toList.dropWhile Char.isWhitespace).reverse.dropWhile
    Char.isWhitespace).reverse)

/-- Model of JavaScript `parseInt(s, 10)`: skip leading whitespace, allow an
optional sign, then read the longest leading run of decimal digits; the NaN
outcome is modelled as `none`. -/
def jsParseInt (s : String) : Option Int :=
  let l := s.toList.dropWhile Char.isWhitespace
  let core : List Char → Option Nat := fun cs =>
    let ds := cs.takeWhile Char.isDigit
    if ds.isEmpty then none
    else some (ds.foldl (fun a c => a * 10 + (c.toNat - 48)) 0)
  match l with
  | '-' :: rest => (core rest).map (fun n => -(n : Int))
  | '+' :: rest => (core rest).map (fun n => (n : Int))
  | _ => (core l).map (fun n => (n : Int))

/-- The preference clamp appearing in every preference-reading caller:
`Math.max(1, Math.min(10, parseInt(stored || "3", 10)))`. A NaN parse
result propagates through `Math.min` and `Math.max`, modelled as `none`. -/
def clampMaxSentences (stored : Option String) : Option Int :=
  (jsParseInt (jsOrString stored "3")).map (fun n => max 1 (min 10 n))

/-- One HTTP response as observed by the client: status code and body text. -/
structure HttpResponse where
  status : Nat
  body : String
deriving Repr, DecidableEq

/-- Typed failure taxonomy of the HTTP client and the request builder. -/
inductive JsError where
  | validationError
  | parseError (raw : String)
  | httpError (status : Nat) (body : String)
deriving Repr, DecidableEq

/-- Renders an error the way the JavaScript `String(err)` call does on the
Error values thrown by the background script. -/
def errString : JsError → String
  | JsError.validationError => "Error: No text provided to summarize."
  | JsError.parseError raw => "Error: Invalid JSON from backend: " ++ raw
  | JsError.httpError status body =>
      "Error: HTTP " ++ toString status ++ ": " ++
        (if body = "" then "Request failed" else body)

/-- Retry cap shared by both deployment variants. -/
def MAX_RETRIES : Nat := 3

/-- Field `res.ok` of fetch: status in the 2xx range. -/
def resOk (r : HttpResponse) : Bool :=
  decide (200 ≤ r.status) && decide (r.status < 300)

/-- Body of the postJSON retry loop. The source keeps a counter `attempt`
with loop condition `attempt < MAX_RETRIES`; here `retriesLeft` equals
`MAX_RETRIES - attempt`. fetch is modelled by the sequence `responses` (the
idx-th fetch of this call receives `responses idx`) and JSON.parse by the
oracle `parse`. The result carries the loop outcome, the list of backoff
waits performed in order, and the number of fetches issued. -/
def postJSONGo {α : Type} (parse : String → Option α) (responses : Nat → HttpResponse) :
    Nat → Nat → Nat → Except JsError α × List Nat × Nat
  | retriesLeft, delay, idx =>
    let res := responses idx
    if resOk res then
      match parse res.body with
      | some v => (Except.ok v, [], 1)
      | none => (Except.error (JsError.parseError res.body), [], 1)
    else if res.status = 429 then
      match retriesLeft with
      | 0 => (Except.error (JsError.httpError res.status res.body), [], 1)
      | r + 1 =>
        let rest := postJSONGo parse responses r (delay * 2) (idx + 1)
        (rest.1, delay :: rest.2.1, rest.2.2 + 1)
    else
      (Except.error (JsError.httpError res.status res.body), [], 1)

/-- postJSON with a deployment-specific base delay; both copies share
`MAX_RETRIES = 3` and differ only in the base delay constant. -/
def postJSON {α : Type} (parse : String → Option α) (responses : Nat → HttpResponse)
    (base : Nat) : Except JsError α × List Nat × Nat :=
  postJSONGo parse responses MAX_RETRIES base 0

/-- One request body posted to the summarize endpoint. `maxSentences` is an
`Option Int`: `none` models the JavaScript NaN value (serialised as null). -/
structure SummaryRequestBody where
  text : String
  tone : String
  maxSentences : Option Int
deriving Repr, DecidableEq

/-- Request builder `summarize`: rejects empty or all-whitespace text before
any network activity, otherwise posts the body `{ text, tone, maxSentences }`
once per fetch performed by the retry loop. The second component lists the
bodies actually sent over the network. -/
def summarize {α : Type} (parse : String → Option α) (responses : Nat → HttpResponse)
    (base : Nat) (text tone : String) (maxSentences : Option Int) :
    Except JsError α × List SummaryRequestBody :=
  if text = "" ∨ jsTrim text = "" then (Except.error JsError.validationError, [])
  else
    let r := postJSON parse responses base
    (r.1, List.replicate r.2.2 ⟨text, tone, maxSentences⟩)

/-- The success payload shape read by the callers: `result.summary`, which
may be missing or empty. -/
structure SummaryResult where
  summary : Option String
deriving Repr, DecidableEq

/-- One DOM element as far as the bubble renderers observe it: an id (empty
when the element was created without one), its text content and opacity. -/
structure DomElem where
  id : String
  content : String
  opacity : String
deriving Repr, DecidableEq

/-- A single showBubble invocation: the text displayed and the loading flag. -/
structure BubbleCall where
  text : String
  loading : Bool
deriving Repr, DecidableEq

namespace Extension

/-- Base backoff delay of src/extension/background.js. -/
def RETRY_BASE_DELAY_MS : Nat := 600

/-- Fixed element identity of the bubble overlay. -/
def BUBBLE_ID : String := "summarize-bubble"

/-- document.getElementById over the modelled element list. -/
def getElementById (dom : List DomElem) (i : String) : Option DomElem :=
  dom.find? (fun e => e.id == i)

/-- Writes textContent and opacity of the first element carrying the bubble
id, modelling the `body.textContent` and `el.style.opacity` updates. -/
def updateBubble : List DomElem → String → String → List DomElem
  | [], _, _ => []
  | e :: t, txt, op =>
    if e.id == BUBBLE_ID then ⟨e.id, txt, op⟩ :: t
    else e :: updateBubble t txt op

/-- upsertSummaryBubble: reuse the element with the fixed id when present,
otherwise create it (appended to document.body), then write the content and
the loading-dependent opacity. -/
def upsertSummaryBubble (dom : List DomElem) (text : String) (loading : Bool) :
    List DomElem :=
  let op := if loading then "0.75" else "1"
  match getElementById dom BUBBLE_ID with
  | some _ => updateBubble dom text op
  | none => updateBubble (dom ++ [⟨BUBBLE_ID, "", "1"⟩]) text op

/-- Number of bubble overlay elements present in the page. -/
def countBubble (dom : List DomElem) : Nat :=
  (dom.filter (fun e => e.id == BUBBLE_ID)).length

/-- handleSummarizeInTab: shows the loading bubble, reads and clamps the
preferences, calls summarize and replaces the bubble content with the
summary or the stringified error. The first component lists the showBubble
calls in order; the second lists the request bodies sent. -/
def handleSummarizeInTab (parse : String → Option SummaryResult)
    (responses : Nat → HttpResponse) (prefTone prefMax : Option String)
    (selectedText : String) : List BubbleCall × List SummaryRequestBody :=
  let tone := jsOrString prefTone "precise"
  let maxS := clampMaxSentences prefMax
  let r := summarize parse responses RETRY_BASE_DELAY_MS selectedText tone maxS
  let settled : String :=
    match r.1 with
    | Except.ok v => jsOrString v.summary "(no summary returned)"
    | Except.error e => "Error: " ++ errString e
  ([⟨"Summarizing…", true⟩, ⟨settled, false⟩], r.2)

/-- Context-menu listener: trims `info.selectionText`, shows the no-text
notice when the result is empty, otherwise runs handleSummarizeInTab. -/
def contextMenuHandler (parse : String → Option SummaryResult)
    (responses : Nat → HttpResponse) (prefTone prefMax : Option String)
    (selectionText : Option String) : List BubbleCall × List SummaryRequestBody :=
  let selectedText := jsTrim (jsOrString selectionText "")
  if selectedText = "" then ([⟨"No text selected.", false⟩], [])
  else handleSummarizeInTab parse responses prefTone prefMax selectedText

/-- Keyboard-shortcut listener: the selection probe returns the trimmed live
selection (empty when there is none); an empty probe result shows the
no-text notice, otherwise handleSummarizeInTab runs. -/
def commandHandler (parse : String → Option SummaryResult)
    (responses : Nat → HttpResponse) (prefTone prefMax : Option String)
    (selection : Option String) : List BubbleCall × List SummaryRequestBody :=
  let selectedText := jsTrim (jsOrString selection "")
  if selectedText = "" then ([⟨"No text selected.", false⟩], [])
  else handleSummarizeInTab parse responses prefTone prefMax selectedText

/-- Payload of the SUMMARIZE_SELECTION message: `text` has no destructuring
default, while `tone` and `maxSentences` default to "precise" and 3 only
when the field is absent. -/
structure MessagePayload where
  text : Option String
  tone : Option String
  maxSentences : Option (Option Int)
deriving Repr, DecidableEq

/-- Reply shape of the SUMMARIZE_SELECTION message path. -/
inductive MessageReply where
  | ok (data : SummaryResult)
  | err (error : String)
deriving Repr, DecidableEq

/-- onMessage listener for SUMMARIZE_SELECTION: destructures the payload
with defaults, calls summarize directly (no clamping on this path) and
replies with the data or with the stringified error. A missing text field
behaves like the empty string under the validation check. -/
def onMessageHandler (parse : String → Option SummaryResult)
    (responses : Nat → HttpResponse) (payload : Option MessagePayload) :
    MessageReply × List SummaryRequestBody :=
  let p := payload.getD ⟨none, none, none⟩
  let text := p.text.getD ""
  let tone := p.tone.getD "precise"
  let maxS := p.maxSentences.getD (some 3)
  let r := summarize parse responses RETRY_BASE_DELAY_MS text tone maxS
  match r.1 with
  | Except.ok v => (MessageReply.ok v, r.2)
  | Except.error e => (MessageReply.err (errString e), r.2)

end Extension

namespace Variant

/-- Base backoff delay of the second background-script copy. -/
def RETRY_BASE_DELAY_MS : Nat := 500

/-- inPageRenderBubble: builds a fresh overlay element (without any id) and
appends it to document.body on every call; the removal timer it schedules
20 seconds later is not part of the rendered state here. -/
def inPageRenderBubble (dom : List DomElem) (summaryText : String) : List DomElem :=
  dom ++ [⟨"", summaryText, "1"⟩]

/-- jsReplaceAllChar c r l: the global single-character regex replace
`String.prototype.replace` with a one-character pattern. -/
def jsReplaceAllChar (c : Char) (r : List Char) : List Char → List Char
  | [] => []
  | x :: t => (if x = c then r else [x]) ++ jsReplaceAllChar c r t

/-- The escaping chain of the fallback document: replace every ampersand,
then every less-than sign, then every greater-than sign by the entity. -/
def htmlEscape (s : String) : String :=
  String.mk (jsReplaceAllChar '>' "&gt;".toList
    (jsReplaceAllChar '<' "&lt;".toList
      (jsReplaceAllChar '&' "&amp;".toList s.toList)))

/-- Document text before the escaped content in the fallback template. -/
def FALLBACK_DOC_PRE : String :=
  "\n      <!doctype html><meta charset=\"utf-8\">\n      <title>Summary</title>\n      <div style=\"font:14px/1.5 system-ui,-apple-system,Segoe UI,Roboto,Helvetica,Arial;margin:24px;max-width:800px\">\n        <h1 style=\"font-size:18px;margin:0 0 10px\">Summary</h1>\n        <pre style=\"white-space:pre-wrap;background:#fafafa;padding:12px;border-radius:10px;border:1px solid #eee\">"

/-- Document text after the escaped content in the fallback template. -/
def FALLBACK_DOC_POST : String := "</pre>\n      </div>"

/-- Fallback document content: the template with the HTML-escaped text
spliced into the preformatted block. -/
def fallbackHtml (text : String) : String :=
  FALLBACK_DOC_PRE ++ htmlEscape text ++ FALLBACK_DOC_POST

/-- showBubbleInTab: attempt in-page injection of the renderer; when the
host rejects the injection, open a new tab whose document is the fallback
html (the data-url transport wrapper around the document is not modelled).
Returns the page dom after the call and, when one was opened, the document
of the new tab. -/
def showBubbleInTab (injectionOk : Bool) (dom : List DomElem) (text : String) :
    List DomElem × Option String :=
  if injectionOk then (inPageRenderBubble dom text, none)
  else (dom, some (fallbackHtml text))

/-- Context-menu listener of this variant: no loading bubble is shown; after
the empty check the preferences are read and clamped, summarize runs and a
single bubble shows the summary or the stringified error. -/
def contextMenuHandler (parse : String → Option SummaryResult)
    (responses : Nat → HttpResponse) (prefTone prefMax : Option String)
    (selectionText : Option String) : List BubbleCall × List SummaryRequestBody :=
  let selectedText := jsTrim (jsOrString selectionText "")
  if selectedText = "" then ([⟨"No text selected.", false⟩], [])
  else
    let tone := jsOrString prefTone "precise"
    let maxS := clampMaxSentences prefMax
    let r := summarize parse responses RETRY_BASE_DELAY_MS selectedText tone maxS
    match r.1 with
    | Except.ok v => ([⟨jsOrString v.summary "(no summary returned)", false⟩], r.2)
    | Except.error e => ([⟨"Error: " ++ errString e, false⟩], r.2)

/-- Keyboard-shortcut listener of this variant: same body as the menu path
after probing the live selection; no loading bubble is shown either. -/
def commandHandler (parse : String → Option SummaryResult)
    (responses : Nat → HttpResponse) (prefTone prefMax : Option String)
    (selection : Option String) : List BubbleCall × List SummaryRequestBody :=
  let selectedText := jsTrim (jsOrString selection "")
  if selectedText = "" then ([⟨"No text selected.", false⟩], [])
  else
    let tone := jsOrString prefTone "precise"
    let maxS := clampMaxSentences prefMax
    let r := summarize parse responses RETRY_BASE_DELAY_MS selectedText tone maxS
    match r.1 with
    | Except.ok v => ([⟨jsOrString v.summary "(no summary returned)", false⟩], r.2)
    | Except.error e => ([⟨"Error: " ++ errString e, false⟩], r.2)

end Variant

namespace Popup

/-- Helper for the substring check: does the second list occur at the head
of the first. -/
def listStartsWith : List Char → List Char → Bool
  | _, [] => true
  | [], _ :: _ => false
  | c :: t, p :: ps => c == p && listStartsWith t ps

/-- Substring occurrence over char lists, modelling
`String.prototype.includes`. -/
def containsSub : List Char → List Char → Bool
  | [], sub => sub.isEmpty
  | c :: t, sub => listStartsWith (c :: t) sub || containsSub t sub

/-- String-level includes. -/
def strIncludes (s sub : String) : Bool := containsSub s.toList sub.toList

/-- toLowerCase model over the char list. -/
def toLowerString (s : String) : String := String.mk (s.toList.map Char.toLower)

/-- Friendly error mapping of the popup result area; the input is the error
field of the reply, absent when the reply itself was missing. -/
def friendlyError (respError : Option String) : String :=
  let msg := jsOrString respError "Request failed"
  if strIncludes msg "429" then "Rate limited. Try again shortly."
  else if strIncludes msg "402" || strIncludes (toLowerString msg) "quota" then
    "Billing/credits issue."
  else if strIncludes msg "502" then "Model is busy. Try again."
  else "Something went wrong."

end Popup

/-- Specification-side per-character escape map, used to state that the
chained replaces escape every occurrence of the three markup characters. -/
def htmlEscapeCharSpec (c : Char) : List Char :=
  if c = '&' then "&amp;".toList
  else if c = '<' then "&lt;".toList
  else if c = '>' then "&gt;".toList
  else [c]

/-- Backoff delay sequence: r waits doubling from d. -/
def delaysSeq : Nat → Nat → List Nat
  | _, 0 => []
  | d, r + 1 => d :: delaysSeq (d * 2) r

deriving instance DecidableEq for Except


lemma postJSONGo_fail_other {α : Type} (parse : String → Option α)
    (responses : Nat → HttpResponse) (rl d i : Nat)
    (hok : resOk (responses i) = false) (hne : (responses i).status ≠ 429) :
    postJSONGo parse responses rl d i =
      (Except.error (JsError.httpError (responses i).status (responses i).body), [], 1) := by
  cases rl with
  | zero => rw [postJSONGo.eq_1]; simp [hok, hne]
  | succ r => rw [postJSONGo.eq_2]; simp [hok, hne]

lemma postJSONGo_ok {α : Type} (parse : String → Option α)
    (responses : Nat → HttpResponse) (rl d i : Nat)
    (hok : resOk (responses i) = true) :
    postJSONGo parse responses rl d i =
      (match parse (responses i).body with
       | some v => (Except.ok v, [], 1)
       | none => (Except.error (JsError.parseError (responses i).body), [], 1)) := by
  cases rl with
  | zero => rw [postJSONGo.eq_1]; simp [hok]
  | succ r => rw [postJSONGo.eq_2]; simp [hok]

lemma resOk_429 (r : HttpResponse) (h : r.status = 429) : resOk r = false := by
  simp [resOk, h]

lemma postJSONGo_429_step {α : Type} (parse : String → Option α)
    (responses : Nat → HttpResponse) (r d i : Nat)
    (h0 : (responses i).status = 429) :
    postJSONGo parse responses (r + 1) d i =
      ((postJSONGo parse responses r (d * 2) (i + 1)).1,
        d :: (postJSONGo parse responses r (d * 2) (i + 1)).2.1,
        (postJSONGo parse responses r (d * 2) (i + 1)).2.2 + 1) := by
  rw [postJSONGo.eq_2]
  simp [resOk_429 _ h0, h0]

lemma postJSONGo_all429 {α : Type} (parse : String → Option α)
    (responses : Nat → HttpResponse) :
    ∀ (r d i : Nat), (∀ j, j ≤ r → (responses (i + j)).status = 429) →
      postJSONGo parse responses r d i =
        (Except.error (JsError.httpError 429 (responses (i + r)).body),
          delaysSeq d r, r + 1) := by
  intro r
  induction r with
  | zero =>
    intro d i h
    have h0 : (responses i).status = 429 := by simpa using h 0 (Nat.le_refl 0)
    rw [postJSONGo.eq_1]
    simp [resOk_429 _ h0, h0, delaysSeq]
  | succ r ih =>
    intro d i h
    have h0 : (responses i).status = 429 := by simpa using h 0 (Nat.zero_le _)
    have hrec := ih (d * 2) (i + 1) (fun j hj => by
      have := h (j + 1) (Nat.succ_le_succ hj)
      have hidx : i + 1 + j = i + (j + 1) := by omega
      rwa [hidx])
    rw [postJSONGo_429_step parse responses r d i h0, hrec]
    have hidx : i + 1 + r = i + (r + 1) := by omega
    rw [hidx]
    simp [delaysSeq]

/-- C2: a 429 response is retried up to exactly MAX_RETRIES = 3 additional
attempts, each preceded by a wait doubling from the deployment base delay
(600 in the extension copy, 500 in the second copy); exhausting the retries
fails with the 429 HttpError carrying the final body, and any other non-2xx
status fails immediately with HttpError of that status and body, with a
single fetch and no waits. -/
theorem claim_C2_retry_backoff :
    MAX_RETRIES = 3 ∧ Extension.RETRY_BASE_DELAY_MS = 600 ∧
    Variant.RETRY_BASE_DELAY_MS = 500 ∧
    (∀ (α : Type) (parse : String → Option α) (responses : Nat → HttpResponse)
      (base : Nat),
      (∀ j, j ≤ MAX_RETRIES → (responses j).status = 429) →
      postJSON parse responses base =
        (Except.error (JsError.httpError 429 (responses 3).body),
          [base, base * 2, base * 2 * 2], 4)) ∧
    (∀ (α : Type) (parse : String → Option α) (responses : Nat → HttpResponse)
      (base : Nat),
      resOk (responses 0) = false → (responses 0).status ≠ 429 →
      postJSON parse responses base =
        (Except.error (JsError.httpError (responses 0).status (responses 0).body),
          [], 1)) ∧
    (∀ (α : Type) (parse : String → Option α) (responses : Nat → HttpResponse)
      (base : Nat),
      (responses 0).status = 429 → resOk (responses 1) = false →
      (responses 1).status ≠ 429 →
      postJSON parse responses base =
        (Except.error (JsError.httpError (responses 1).status (responses 1).body),
          [base], 2)) := by
  refine ⟨rfl, rfl, rfl, ?_, ?_, ?_⟩
  · intro α parse responses base h
    have := postJSONGo_all429 parse responses 3 base 0 (fun j hj => by
      simpa using h j hj)
    simpa [postJSON, MAX_RETRIES, delaysSeq] using this
  · intro α parse responses base hok hne
    exact postJSONGo_fail_other parse responses MAX_RETRIES base 0 hok hne
  · intro α parse responses base h0 hok hne
    have hinner := postJSONGo_fail_other parse responses 2 (base * 2) 1 hok hne
    have := postJSONGo_429_step parse responses 2 base 0 h0
    rw [hinner] at this
    exact this

/-- C2 witness: with every response a 429 of body "slow" and base delay 500,
the call fails with the 429 HttpError after waits 500, 1000, 2000 and four
fetches; a single 500-status response fails at once. -/
theorem claim_C2_retry_backoff_witness :
    postJSON (fun _ => (none : Option SummaryResult)) (fun _ => ⟨429, "slow"⟩) 500 =
      (Except.error (JsError.httpError 429 "slow"), [500, 1000, 2000], 4) ∧
    postJSON (fun _ => (none : Option SummaryResult)) (fun _ => ⟨500, "bad"⟩) 600 =
      (Except.error (JsError.httpError 500 "bad"), [], 1) :=
  ⟨claim_C2_retry_backoff.2.2.2.1 SummaryResult _ _ 500 (fun _ _ => rfl),
   claim_C2_retry_backoff.2.2.2.2.1 SummaryResult _ _ 600 (by decide) (by decide)⟩

/-- C8: on a 2xx response the helper returns the parsed JSON value unchanged
when the body parses, and otherwise fails with a ParseError carrying the raw
response text; in both cases there is exactly one fetch and no retry wait. -/
theorem claim_C8_parse_2xx :
    ∀ (α : Type) (parse : String → Option α) (responses : Nat → HttpResponse)
      (base : Nat),
      resOk (responses 0) = true →
      (∀ v, parse (responses 0).body = some v →
        postJSON parse responses base = (Except.ok v, [], 1)) ∧
      (parse (responses 0).body = none →
        postJSON parse responses base =
          (Except.error (JsError.parseError (responses 0).body), [], 1)) := by
  intro α parse responses base hok
  constructor
  · intro v hv
    rw [postJSON, postJSONGo_ok parse responses MAX_RETRIES base 0 hok, hv]
  · intro hn
    rw [postJSON, postJSONGo_ok parse responses MAX_RETRIES base 0 hok, hn]

/-- C8 witness: a 200 response whose body parses yields the parsed value; a
200 response with a non-JSON body yields the ParseError carrying that body. -/
theorem claim_C8_parse_2xx_witness :
    postJSON (fun _ => (some ⟨some "X"⟩ : Option SummaryResult))
      (fun _ => ⟨200, "{}"⟩) 600 = (Except.ok ⟨some "X"⟩, [], 1) ∧
    postJSON (fun _ => (none : Option SummaryResult))
      (fun _ => ⟨200, "not json"⟩) 600 =
      (Except.error (JsError.parseError "not json"), [], 1) :=
  ⟨(claim_C8_parse_2xx SummaryResult _ _ 600 (by decide)).1 ⟨some "X"⟩ rfl,
   (claim_C8_parse_2xx SummaryResult _ _ 600 (by decide)).2 rfl⟩

/-- C3: empty or all-whitespace text fails with ValidationError before any
network activity: the request builder sends no request body at all. -/
theorem claim_C3_validation :
    ∀ (α : Type) (parse : String → Option α) (responses : Nat → HttpResponse)
      (base : Nat) (text tone : String) (maxSentences : Option Int),
      jsTrim text = "" →
      summarize parse responses base text tone maxSentences =
        (Except.error JsError.validationError, []) := by
  intro α parse responses base text tone ms h
  simp [summarize, h]

/-- C3 witness: both the empty text and the all-whitespace text fail with
ValidationError and send zero requests. -/
theorem claim_C3_validation_witness :
    summarize (fun _ => (some ⟨some "X"⟩ : Option SummaryResult))
      (fun _ => ⟨200, "{}"⟩) 600 "   " "precise" (some 3) =
      (Except.error JsError.validationError, []) ∧
    summarize (fun _ => (some ⟨some "X"⟩ : Option SummaryResult))
      (fun _ => ⟨200, "{}"⟩) 500 "" "precise" (some 3) =
      (Except.error JsError.validationError, []) :=
  ⟨claim_C3_validation SummaryResult _ _ 600 "   " "precise" (some 3) (by decide),
   claim_C3_validation SummaryResult _ _ 500 "" "precise" (some 3) (by decide)⟩

/-- C1 counterexample: the request builder does not clamp. A caller-supplied
maxSentences of 99 is sent to the service unchanged, both through summarize
directly and through the message path, and the stored preference "abc"
parses to NaN (modelled none) rather than becoming the default 3. -/
theorem claim_C1_counterexample :
    (summarize (fun _ => (some ⟨some "X"⟩ : Option SummaryResult))
      (fun _ => ⟨200, "{}"⟩) 600 "hi" "precise" (some 99)).2 =
      [⟨"hi", "precise", some 99⟩] ∧
    (Extension.onMessageHandler (fun _ => some ⟨some "X"⟩) (fun _ => ⟨200, "{}"⟩)
      (some ⟨some "hi", none, some (some 99)⟩)).2 = [⟨"hi", "precise", some 99⟩] ∧
    clampMaxSentences (some "abc") = none ∧
    clampMaxSentences (some "abc") ≠ some 3 := by
  refine ⟨by decide, by decide, by decide, by decide⟩

/-- C1 amended: every preference-reading caller clamps through
max 1 (min 10 (parseInt (stored or "3"))), so every numeric parse lands in
[1,10]: input 0 becomes 1, input 99 becomes 10, and an absent or empty
preference defaults to 3. A non-numeric preference such as "abc" parses to
NaN (none) instead of the default 3, and summarize itself performs no
clamping: it forwards maxSentences unchanged in every request body. -/
theorem claim_C1_clamping :
    (∀ (stored : Option String) (n : Int),
      clampMaxSentences stored = some n → 1 ≤ n ∧ n ≤ 10) ∧
    clampMaxSentences (some "0") = some 1 ∧
    clampMaxSentences (some "99") = some 10 ∧
    clampMaxSentences none = some 3 ∧
    clampMaxSentences (some "") = some 3 ∧
    clampMaxSentences (some "abc") = none ∧
    (∀ (α : Type) (parse : String → Option α) (responses : Nat → HttpResponse)
      (base : Nat) (text tone : String) (ms : Option Int) (r : SummaryRequestBody),
      r ∈ (summarize parse responses base text tone ms).2 → r.maxSentences = ms) := by
  refine ⟨?_, by decide, by decide, by decide, by decide, by decide, ?_⟩
  · intro stored n h
    simp only [clampMaxSentences, Option.map_eq_some'] at h
    obtain ⟨k, hk, rfl⟩ := h
    constructor
    · exact le_max_left 1 _
    · exact max_le (by norm_num) (min_le_left 10 k)
  · intro α parse responses base text tone ms r hr
    by_cases hv : text = "" ∨ jsTrim text = ""
    · simp [summarize, hv] at hr
    · simp only [summarize, if_neg hv] at hr
      exact congrArg SummaryRequestBody.maxSentences (List.eq_of_mem_replicate hr)

/-- C1 witness: a stored numeric preference is clamped into the range, and a
concrete request body produced by summarize carries the caller value. -/
theorem claim_C1_clamping_witness :
    ((1:Int) ≤ 7 ∧ (7:Int) ≤ 10) ∧
    (⟨"hi", "precise", some 99⟩ : SummaryRequestBody).maxSentences = some 99 :=
  ⟨claim_C1_clamping.1 (some "7") 7 (by decide),
   claim_C1_clamping.2.2.2.2.2.2 SummaryResult (fun _ => some ⟨some "X"⟩)
     (fun _ => ⟨200, "{}"⟩) 600 "hi" "precise" (some 99) ⟨"hi", "precise", some 99⟩
     (by decide)⟩

namespace Extension

lemma countBubble_updateBubble (dom : List DomElem) (t o : String) :
    countBubble (updateBubble dom t o) = countBubble dom := by
  induction dom with
  | nil => rfl
  | cons e rest ih =>
    by_cases he : e.id == BUBBLE_ID
    · simp [updateBubble, countBubble, List.filter_cons, he]
    · simp only [updateBubble, if_neg (by simpa using he)]
      simp [countBubble, List.filter_cons, he] at ih ⊢
      exact ih

lemma countBubble_append (a b : List DomElem) :
    countBubble (a ++ b) = countBubble a + countBubble b := by
  simp [countBubble, List.filter_append]

lemma getElementById_eq_none (dom : List DomElem) (h : countBubble dom = 0) :
    getElementById dom BUBBLE_ID = none := by
  induction dom with
  | nil => rfl
  | cons e rest ih =>
    by_cases he : e.id == BUBBLE_ID
    · exfalso
      simp [countBubble, List.filter_cons, he] at h
    · have hrest : countBubble rest = 0 := by
        simpa [countBubble, List.filter_cons, he] using h
      simpa [getElementById, List.find?_cons, he] using ih hrest

lemma getElementById_isSome (dom : List DomElem) (h : countBubble dom ≠ 0) :
    (getElementById dom BUBBLE_ID).isSome = true := by
  induction dom with
  | nil => exact absurd rfl h
  | cons e rest ih =>
    by_cases he : e.id == BUBBLE_ID
    · simp [getElementById, List.find?_cons, he]
    · have hrest : countBubble rest ≠ 0 := by
        simpa [countBubble, List.filter_cons, he] using h
      simpa [getElementById, List.find?_cons, he] using ih hrest

lemma getElementById_updateBubble (dom : List DomElem) (t o : String) :
    getElementById (updateBubble dom t o) BUBBLE_ID =
      (getElementById dom BUBBLE_ID).map (fun e => ⟨e.id, t, o⟩) := by
  induction dom with
  | nil => rfl
  | cons e rest ih =>
    by_cases he : e.id == BUBBLE_ID
    · simp [updateBubble, getElementById, List.find?_cons, he]
    · simp only [updateBubble, if_neg (by simpa using he)]
      simpa [getElementById, List.find?_cons, he] using ih

end Extension

namespace Extension

lemma upsertSummaryBubble_of_none (dom : List DomElem) (t : String) (l : Bool)
    (hn : getElementById dom BUBBLE_ID = none) :
    upsertSummaryBubble dom t l =
      updateBubble (dom ++ [⟨BUBBLE_ID, "", "1"⟩]) t (if l then "0.75" else "1") := by
  simp [upsertSummaryBubble, hn]

lemma upsertSummaryBubble_of_some (dom : List DomElem) (t : String) (l : Bool)
    (e : DomElem) (he : getElementById dom BUBBLE_ID = some e) :
    upsertSummaryBubble dom t l = updateBubble dom t (if l then "0.75" else "1") := by
  simp [upsertSummaryBubble, he]

end Extension

/-- C4 amended: the extension renderer upsertSummaryBubble is idempotent by
fixed element identity: from a page holding no bubble, the first call
creates exactly one bubble element and the second call updates that same
element in place, so the bubble count stays 1 and the content after the
second call is the second text. The second deployment copy does not have
this property (see the counterexample). -/
theorem claim_C4_upsert_idempotent :
    ∀ (dom : List DomElem) (t1 t2 : String) (l1 l2 : Bool),
      Extension.countBubble dom = 0 →
      Extension.countBubble (Extension.upsertSummaryBubble dom t1 l1) = 1 ∧
      Extension.countBubble
        (Extension.upsertSummaryBubble (Extension.upsertSummaryBubble dom t1 l1) t2 l2) = 1 ∧
      (Extension.getElementById
        (Extension.upsertSummaryBubble (Extension.upsertSummaryBubble dom t1 l1) t2 l2)
        Extension.BUBBLE_ID).map DomElem.content = some t2 := by
  intro dom t1 t2 l1 l2 h0
  have hnone := Extension.getElementById_eq_none dom h0
  have hd1 := Extension.upsertSummaryBubble_of_none dom t1 l1 hnone
  have hcount1 : Extension.countBubble (Extension.upsertSummaryBubble dom t1 l1) = 1 := by
    rw [hd1, Extension.countBubble_updateBubble, Extension.countBubble_append, h0]
    decide
  obtain ⟨e, he⟩ := Option.isSome_iff_exists.mp
    (Extension.getElementById_isSome _ (by rw [hcount1]; decide))
  have hd2 := Extension.upsertSummaryBubble_of_some
    (Extension.upsertSummaryBubble dom t1 l1) t2 l2 e he
  refine ⟨hcount1, ?_, ?_⟩
  · rw [hd2, Extension.countBubble_updateBubble, hcount1]
  · rw [hd2, Extension.getElementById_updateBubble, he]
    rfl

/-- C4 witness: from the empty page, rendering the loading text then the
result leaves exactly one bubble whose content is the result text. -/
theorem claim_C4_upsert_idempotent_witness :
    Extension.countBubble
      (Extension.upsertSummaryBubble
        (Extension.upsertSummaryBubble [] "Summarizing…" true) "X" false) = 1 ∧
    (Extension.getElementById
      (Extension.upsertSummaryBubble
        (Extension.upsertSummaryBubble [] "Summarizing…" true) "X" false)
      Extension.BUBBLE_ID).map DomElem.content = some "X" :=
  ⟨(claim_C4_upsert_idempotent [] "Summarizing…" "X" true false (by decide)).2.1,
   (claim_C4_upsert_idempotent [] "Summarizing…" "X" true false (by decide)).2.2⟩

/-- C4 counterexample: the renderer of the second deployment copy appends a
fresh overlay element on every call, so two successive render calls on an
empty page leave two overlay elements rather than one. -/
theorem claim_C4_counterexample :
    Variant.inPageRenderBubble (Variant.inPageRenderBubble [] "a") "b" =
      [⟨"", "a", "1"⟩, ⟨"", "b", "1"⟩] ∧
    (Variant.inPageRenderBubble (Variant.inPageRenderBubble [] "a") "b").length = 2 ∧
    (Variant.inPageRenderBubble (Variant.inPageRenderBubble [] "a") "b").length ≠ 1 :=
  ⟨by decide, by decide, by decide⟩

/-- C9: whenever the selection available to a menu or shortcut trigger trims
to the empty string, all four trigger paths show exactly the notice
"No text selected." and send no request; the outcome is the plain notice,
not an error rendering. -/
theorem claim_C9_no_selection :
    ∀ (parse : String → Option SummaryResult) (responses : Nat → HttpResponse)
      (prefTone prefMax : Option String) (sel : Option String),
      jsTrim (jsOrString sel "") = "" →
      Extension.contextMenuHandler parse responses prefTone prefMax sel =
        ([⟨"No text selected.", false⟩], []) ∧
      Extension.commandHandler parse responses prefTone prefMax sel =
        ([⟨"No text selected.", false⟩], []) ∧
      Variant.contextMenuHandler parse responses prefTone prefMax sel =
        ([⟨"No text selected.", false⟩], []) ∧
      Variant.commandHandler parse responses prefTone prefMax sel =
        ([⟨"No text selected.", false⟩], []) := by
  intro parse responses pt pm sel h
  refine ⟨?_, ?_, ?_, ?_⟩ <;>
    simp [Extension.contextMenuHandler, Extension.commandHandler,
      Variant.contextMenuHandler, Variant.commandHandler, h]

/-- C9 witness: a missing selection and an all-whitespace selection both
show the notice without any request, on all four paths. -/
theorem claim_C9_no_selection_witness :
    Extension.contextMenuHandler (fun _ => some ⟨some "X"⟩) (fun _ => ⟨200, "{}"⟩)
      none none none = ([⟨"No text selected.", false⟩], []) ∧
    Variant.commandHandler (fun _ => some ⟨some "X"⟩) (fun _ => ⟨200, "{}"⟩)
      none none (some "   ") = ([⟨"No text selected.", false⟩], []) :=
  ⟨(claim_C9_no_selection _ _ none none none (by decide)).1,
   (claim_C9_no_selection _ _ none none (some "   ") (by decide)).2.2.2⟩

/-- C10: when the service call succeeds but the summary field is absent or
the empty string, the bubble shows the placeholder "(no summary returned)"
instead of an empty bubble, on the extension in-tab path and on the menu
path of the second deployment copy. -/
theorem claim_C10_placeholder :
    (∀ (parse : String → Option SummaryResult) (responses : Nat → HttpResponse)
      (prefTone prefMax : Option String) (sel : String) (r : SummaryResult),
      (summarize parse responses Extension.RETRY_BASE_DELAY_MS sel
        (jsOrString prefTone "precise") (clampMaxSentences prefMax)).1 =
        Except.ok r →
      (r.summary = none ∨ r.summary = some "") →
      (Extension.handleSummarizeInTab parse responses prefTone prefMax sel).1 =
        [⟨"Summarizing…", true⟩, ⟨"(no summary returned)", false⟩]) ∧
    (∀ (parse : String → Option SummaryResult) (responses : Nat → HttpResponse)
      (prefTone prefMax : Option String) (sel : Option String) (r : SummaryResult),
      jsTrim (jsOrString sel "") ≠ "" →
      (summarize parse responses Variant.RETRY_BASE_DELAY_MS
        (jsTrim (jsOrString sel "")) (jsOrString prefTone "precise")
        (clampMaxSentences prefMax)).1 = Except.ok r →
      (r.summary = none ∨ r.summary = some "") →
      (Variant.contextMenuHandler parse responses prefTone prefMax sel).1 =
        [⟨"(no summary returned)", false⟩]) := by
  constructor
  · intro parse responses pt pm sel r hs hsm
    simp only [Extension.handleSummarizeInTab, hs]
    rcases hsm with h | h <;> simp [h, jsOrString]
  · intro parse responses pt pm sel r hne hs hsm
    simp only [Variant.contextMenuHandler, if_neg hne, hs]
    rcases hsm with h | h <;> simp [h, jsOrString]

/-- C10 witness: a success payload with an empty summary shows the
placeholder on both modelled paths. -/
theorem claim_C10_placeholder_witness :
    (Extension.handleSummarizeInTab (fun _ => some ⟨some ""⟩)
      (fun _ => ⟨200, "{}"⟩) none none "hi").1 =
      [⟨"Summarizing…", true⟩, ⟨"(no summary returned)", false⟩] ∧
    (Variant.contextMenuHandler (fun _ => some ⟨none⟩)
      (fun _ => ⟨200, "{}"⟩) none none (some "hi")).1 =
      [⟨"(no summary returned)", false⟩] :=
  ⟨claim_C10_placeholder.1 _ _ none none "hi" ⟨some ""⟩ (by decide) (by decide),
   claim_C10_placeholder.2 _ _ none none (some "hi") ⟨none⟩ (by decide) (by decide)
     (by decide)⟩

/-- C6 amended: on the extension copy, the in-tab handler behind both the
menu and the shortcut path always shows exactly two bubbles in order: first
the loading bubble "Summarizing…", then the settled text, which is the
returned summary when the service yields a non-empty one and the
stringified error when the request fails; nothing is shown after the
settled text. The menu and shortcut paths of the second deployment copy
show no loading bubble (see the counterexample). -/
theorem claim_C6_loading_order :
    (∀ (parse : String → Option SummaryResult) (responses : Nat → HttpResponse)
      (prefTone prefMax : Option String) (sel s : String),
      s ≠ "" →
      (summarize parse responses Extension.RETRY_BASE_DELAY_MS sel
        (jsOrString prefTone "precise") (clampMaxSentences prefMax)).1 =
        Except.ok ⟨some s⟩ →
      (Extension.handleSummarizeInTab parse responses prefTone prefMax sel).1 =
        [⟨"Summarizing…", true⟩, ⟨s, false⟩]) ∧
    (∀ (parse : String → Option SummaryResult) (responses : Nat → HttpResponse)
      (prefTone prefMax : Option String) (sel : String) (e : JsError),
      (summarize parse responses Extension.RETRY_BASE_DELAY_MS sel
        (jsOrString prefTone "precise") (clampMaxSentences prefMax)).1 =
        Except.error e →
      (Extension.handleSummarizeInTab parse responses prefTone prefMax sel).1 =
        [⟨"Summarizing…", true⟩, ⟨"Error: " ++ errString e, false⟩]) := by
  constructor
  · intro parse responses pt pm sel s hs hsum
    simp only [Extension.handleSummarizeInTab, hsum]
    simp [jsOrString, hs]
  · intro parse responses pt pm sel e hsum
    simp only [Extension.handleSummarizeInTab, hsum]

/-- C6 witness: with the service returning summary "X", the extension in-tab
handler shows "Summarizing…" and then "X", in that order. -/
theorem claim_C6_loading_order_witness :
    (Extension.handleSummarizeInTab (fun _ => some ⟨some "X"⟩)
      (fun _ => ⟨200, "{}"⟩) none none "hi").1 =
      [⟨"Summarizing…", true⟩, ⟨"X", false⟩] :=
  claim_C6_loading_order.1 _ _ none none "hi" "X" (by decide) (by decide)

/-- C6 counterexample: the shortcut path of the second deployment copy shows
only the settled text; no loading bubble reading "Summarizing…" ever
appears in its trace. -/
theorem claim_C6_counterexample :
    Variant.commandHandler (fun _ => some ⟨some "X"⟩) (fun _ => ⟨200, "{}"⟩)
      none none (some "hi") =
      ([⟨"X", false⟩], [⟨"hi", "precise", some 3⟩]) ∧
    ((Variant.commandHandler (fun _ => some ⟨some "X"⟩) (fun _ => ⟨200, "{}"⟩)
      none none (some "hi")).1.map BubbleCall.text).contains "Summarizing…" = false :=
  ⟨by decide, by decide⟩

lemma strToList_append (a b : String) : (a ++ b).toList = a.toList ++ b.toList := by
  cases a
  cases b
  rfl

namespace Popup

lemma listStartsWith_nil : ∀ (l : List Char), listStartsWith l [] = true
  | [] => rfl
  | _ :: _ => rfl

lemma listStartsWith_append : ∀ (a sub b : List Char),
    listStartsWith a sub = true → listStartsWith (a ++ b) sub = true
  | a, [], b, _ => listStartsWith_nil (a ++ b)
  | [], _ :: _, _, h => by simp [listStartsWith] at h
  | c :: t, p :: ps, b, h => by
      simp only [listStartsWith, Bool.and_eq_true] at h
      simp only [List.cons_append, listStartsWith, Bool.and_eq_true]
      exact ⟨h.1, listStartsWith_append t ps b h.2⟩

lemma containsSub_nil_sub : ∀ (l : List Char), containsSub l [] = true
  | [] => rfl
  | _ :: t => by simp [containsSub, listStartsWith]

lemma containsSub_append_left : ∀ (a b sub : List Char),
    containsSub a sub = true → containsSub (a ++ b) sub = true
  | [], b, sub, h => by
      have hs : sub = [] := by simpa [containsSub] using h
      subst hs
      simpa using containsSub_nil_sub b
  | c :: t, b, sub, h => by
      simp only [containsSub, Bool.or_eq_true] at h
      simp only [List.cons_append, containsSub, Bool.or_eq_true]
      rcases h with h | h
      · exact Or.inl (by simpa using listStartsWith_append (c :: t) sub b h)
      · exact Or.inr (containsSub_append_left t b sub h)

lemma strIncludes_append_left (a b sub : String) (h : strIncludes a sub = true) :
    strIncludes (a ++ b) sub = true := by
  unfold strIncludes at h ⊢
  rw [strToList_append]
  exact containsSub_append_left _ _ _ h

end Popup

/-- C5 amended: the friendly mapping exists only in the popup control
surface. There, a message containing "429" (as every stringified 429
HttpError does) maps to the rate-limit notice; a message containing "402"
or, lowercased, "quota" maps to the billing notice; a message containing
"502" maps to the model-busy notice; and any other message maps to the
generic notice. The in-page bubble paths do not apply this mapping (see the
counterexample). -/
theorem claim_C5_friendly_mapping :
    (∀ b : String,
      Popup.friendlyError (some (errString (JsError.httpError 429 b))) =
        "Rate limited. Try again shortly.") ∧
    (∀ b : String,
      Popup.strIncludes (errString (JsError.httpError 402 b)) "429" = false →
      Popup.friendlyError (some (errString (JsError.httpError 402 b))) =
        "Billing/credits issue.") ∧
    (∀ msg : String, msg ≠ "" →
      Popup.strIncludes msg "429" = false →
      Popup.strIncludes (Popup.toLowerString msg) "quota" = true →
      Popup.friendlyError (some msg) = "Billing/credits issue.") ∧
    (∀ b : String,
      Popup.strIncludes (errString (JsError.httpError 502 b)) "429" = false →
      Popup.strIncludes (errString (JsError.httpError 502 b)) "402" = false →
      Popup.strIncludes (Popup.toLowerString (errString (JsError.httpError 502 b)))
        "quota" = false →
      Popup.friendlyError (some (errString (JsError.httpError 502 b))) =
        "Model is busy. Try again.") ∧
    (∀ msg : String, msg ≠ "" →
      Popup.strIncludes msg "429" = false →
      Popup.strIncludes msg "402" = false →
      Popup.strIncludes (Popup.toLowerString msg) "quota" = false →
      Popup.strIncludes msg "502" = false →
      Popup.friendlyError (some msg) = "Something went wrong.") := by
  refine ⟨?_, ?_, ?_, ?_, ?_⟩
  · intro b
    have hinc : Popup.strIncludes (errString (JsError.httpError 429 b)) "429" = true := by
      simp only [errString]
      exact Popup.strIncludes_append_left _ _ _ (by decide)
    have hne : errString (JsError.httpError 429 b) ≠ "" := by
      intro h
      rw [h] at hinc
      exact absurd hinc (by decide)
    simp [Popup.friendlyError, jsOrString, hne, hinc]
  · intro b h429
    have hinc : Popup.strIncludes (errString (JsError.httpError 402 b)) "402" = true := by
      simp only [errString]
      exact Popup.strIncludes_append_left _ _ _ (by decide)
    have hne : errString (JsError.httpError 402 b) ≠ "" := by
      intro h
      rw [h] at hinc
      exact absurd hinc (by decide)
    simp [Popup.friendlyError, jsOrString, hne, h429, hinc]
  · intro msg hne h429 hquota
    simp [Popup.friendlyError, jsOrString, hne, h429, hquota]
  · intro b h429 h402 hquota
    have hinc : Popup.strIncludes (errString (JsError.httpError 502 b)) "502" = true := by
      simp only [errString]
      exact Popup.strIncludes_append_left _ _ _ (by decide)
    have hne : errString (JsError.httpError 502 b) ≠ "" := by
      intro h
      rw [h] at hinc
      exact absurd hinc (by decide)
    simp [Popup.friendlyError, jsOrString, hne, h429, h402, hquota, hinc]
  · intro msg hne h429 h402 hquota h502
    simp [Popup.friendlyError, jsOrString, hne, h429, h402, hquota, h502]

/-- C5 witness: the four mapped notices at concrete failure messages. -/
theorem claim_C5_friendly_mapping_witness :
    Popup.friendlyError (some (errString (JsError.httpError 429 "slow"))) =
      "Rate limited. Try again shortly." ∧
    Popup.friendlyError (some (errString (JsError.httpError 402 "pay"))) =
      "Billing/credits issue." ∧
    Popup.friendlyError (some "QUOTA exceeded") = "Billing/credits issue." ∧
    Popup.friendlyError (some (errString (JsError.httpError 502 "busy"))) =
      "Model is busy. Try again." ∧
    Popup.friendlyError (some "boom") = "Something went wrong." :=
  ⟨claim_C5_friendly_mapping.1 "slow",
   claim_C5_friendly_mapping.2.1 "pay" (by decide),
   claim_C5_friendly_mapping.2.2.1 "QUOTA exceeded" (by decide) (by decide) (by decide),
   claim_C5_friendly_mapping.2.2.2.1 "busy" (by decide) (by decide) (by decide),
   claim_C5_friendly_mapping.2.2.2.2 "boom" (by decide) (by decide) (by decide)
     (by decide) (by decide)⟩

/-- C5 counterexample: on the in-page bubble path a billing failure (HTTP
402) is displayed as the raw stringified error, not as the mapped friendly
billing notice, so the friendly mapping is not applied by every displayed
surface. -/
theorem claim_C5_counterexample :
    (Extension.handleSummarizeInTab (fun _ => none)
      (fun _ => ⟨402, "payment required"⟩) none none "hi").1 =
      [⟨"Summarizing…", true⟩,
       ⟨"Error: Error: HTTP 402: payment required", false⟩] ∧
    Popup.friendlyError (some (errString (JsError.httpError 402 "payment required"))) =
      "Billing/credits issue." ∧
    ("Error: Error: HTTP 402: payment required" : String) ≠ "Billing/credits issue." :=
  ⟨by decide, by decide, by decide⟩

namespace Variant

lemma jsReplaceAllChar_append (c : Char) (r : List Char) :
    ∀ (a b : List Char),
      jsReplaceAllChar c r (a ++ b) = jsReplaceAllChar c r a ++ jsReplaceAllChar c r b
  | [], _ => rfl
  | x :: t, b => by
      have ih := jsReplaceAllChar_append c r t b
      simp [jsReplaceAllChar, ih, List.append_assoc]

lemma escapeHead (x : Char) :
    jsReplaceAllChar '>' "&gt;".toList (jsReplaceAllChar '<' "&lt;".toList
      (jsReplaceAllChar '&' "&amp;".toList [x])) = htmlEscapeCharSpec x := by
  by_cases h1 : x = '&'
  · subst h1; decide
  · by_cases h2 : x = '<'
    · subst h2; decide
    · by_cases h3 : x = '>'
      · subst h3; decide
      · simp [jsReplaceAllChar, h1, h2, h3, htmlEscapeCharSpec]

lemma escapeChain_eq_spec : ∀ (l : List Char),
    jsReplaceAllChar '>' "&gt;".toList (jsReplaceAllChar '<' "&lt;".toList
      (jsReplaceAllChar '&' "&amp;".toList l)) = (l.map htmlEscapeCharSpec).flatten
  | [] => rfl
  | x :: t => by
      rw [show x :: t = [x] ++ t from rfl, jsReplaceAllChar_append,
        jsReplaceAllChar_append, jsReplaceAllChar_append,
        escapeChain_eq_spec t, escapeHead]
      simp

lemma specChar_no_markup (x : Char) :
    (htmlEscapeCharSpec x).all (fun c => !(c == '<' || c == '>')) = true := by
  by_cases h1 : x = '&'
  · subst h1; decide
  · by_cases h2 : x = '<'
    · subst h2; decide
    · by_cases h3 : x = '>'
      · subst h3; decide
      · simp [htmlEscapeCharSpec, h1, h2, h3]

lemma escape_no_markup : ∀ (l : List Char),
    ((l.map htmlEscapeCharSpec).flatten.all (fun c => !(c == '<' || c == '>'))) = true
  | [] => rfl
  | x :: t => by
      simp only [List.map_cons, List.flatten_cons, List.all_append, Bool.and_eq_true]
      exact ⟨specChar_no_markup x, escape_no_markup t⟩

end Variant

/-- C7: the delivery fallback opens a new document that is the fixed
template with the HTML-escaped input spliced into its preformatted block;
the escaping chain rewrites the text character by character, turning every
ampersand into the amp entity, every less-than sign into the lt entity and
every greater-than sign into the gt entity, so the escaped output contains
no raw markup delimiters at all, and the example input renders as the
literal entity sequence. -/
theorem claim_C7_fallback_escape :
    (∀ (dom : List DomElem) (t : String),
      Variant.showBubbleInTab false dom t = (dom, some (Variant.fallbackHtml t))) ∧
    (∀ t : String, Variant.fallbackHtml t =
      Variant.FALLBACK_DOC_PRE ++ Variant.htmlEscape t ++ Variant.FALLBACK_DOC_POST) ∧
    (∀ t : String, Variant.htmlEscape t =
      String.mk ((t.toList.map htmlEscapeCharSpec).flatten)) ∧
    (∀ t : String,
      ((Variant.htmlEscape t).toList.all (fun c => !(c == '<' || c == '>'))) = true) ∧
    Variant.htmlEscape "<b>&hi</b>" = "&lt;b&gt;&amp;hi&lt;/b&gt;" := by
  refine ⟨fun dom t => rfl, fun t => rfl, ?_, ?_, by decide⟩
  · intro t
    exact congrArg String.mk (Variant.escapeChain_eq_spec t.toList)
  · intro t
    have h := congrArg String.toList
      (congrArg String.mk (Variant.escapeChain_eq_spec t.toList))
    calc (Variant.htmlEscape t).toList.all (fun c => !(c == '<' || c == '>'))
        = ((t.toList.map htmlEscapeCharSpec).flatten.all (fun c => !(c == '<' || c == '>'))) := by
          rw [show (Variant.htmlEscape t).toList =
            (t.toList.map htmlEscapeCharSpec).flatten from h]
      _ = true := Variant.escape_no_markup t.toList
